import Mathlib

/-!
Verification of `compiler/rustc_type_ir/src/region_kind.rs`.

`RegionKind<I: Interner>` is a closed union of eight variants, generic over an
interner/environment `I` that supplies one associated payload type per variant
needing data.  The file under verification hand-writes `PartialEq`, derives
`PartialOrd`/`Ord`/`Hash` structurally (via the `derivative` crate), implements
`HashStable` manually (panicking on `ReVar`), and implements context-free
`Debug` by delegating to `DebugWithInfcx` with a no-op context.

We embed the interner as a structure `Env` bundling the six payload types
together with the equality, comparison, hashing and formatting functions that
the respective Rust capabilities (`PartialEq`, `Ord`, `Hash`/`HashStable`,
`Debug`) would require of them.  A stable hasher is modelled as a `List Nat`
of absorbed words; a panicking hash is modelled as `none`.
-/

/-- The abstract interner (`I: Interner` in the source): one payload type per
variant carrying data, plus the per-payload capabilities the manual trait
bodies demand of them.

* the `eqX` fields are the payload `PartialEq` implementations (note: no
  equality is required of `ErrorGuaranteed`, mirroring the source where the
  `ReError` arm of `eq` ignores its payloads);
* the `cmpX` fields are the payload `Ord` implementations required by the
  derived `Ord` (which, being structural, does require one for
  `ErrorGuaranteed`);
* the `hashX` fields model the word a payload contributes to a hasher
  (required of all six payloads by the derived `Hash`, and of the first five
  by `HashStable`);
* the `fmtX` fields are the payload `Debug` renderings. -/
structure Env where
  EarlyParamRegion : Type
  BoundRegion : Type
  LateParamRegion : Type
  InferRegion : Type
  PlaceholderRegion : Type
  ErrorGuaranteed : Type
  eqEarly : EarlyParamRegion → EarlyParamRegion → Bool
  eqBound : BoundRegion → BoundRegion → Bool
  eqLate : LateParamRegion → LateParamRegion → Bool
  eqInfer : InferRegion → InferRegion → Bool
  eqPlaceholder : PlaceholderRegion → PlaceholderRegion → Bool
  cmpEarly : EarlyParamRegion → EarlyParamRegion → Ordering
  cmpBound : BoundRegion → BoundRegion → Ordering
  cmpLate : LateParamRegion → LateParamRegion → Ordering
  cmpInfer : InferRegion → InferRegion → Ordering
  cmpPlaceholder : PlaceholderRegion → PlaceholderRegion → Ordering
  cmpError : ErrorGuaranteed → ErrorGuaranteed → Ordering
  hashEarly : EarlyParamRegion → Nat
  hashBound : BoundRegion → Nat
  hashLate : LateParamRegion → Nat
  hashInfer : InferRegion → Nat
  hashPlaceholder : PlaceholderRegion → Nat
  hashError : ErrorGuaranteed → Nat
  fmtEarly : EarlyParamRegion → String
  fmtBound : BoundRegion → String
  fmtLate : LateParamRegion → String
  fmtInfer : InferRegion → String
  fmtPlaceholder : PlaceholderRegion → String

/-- `DebruijnIndex` is a `u32` newtype whose equality, ordering, hashing and
debug rendering are those of the index itself; we model it as `Nat`. -/
abbrev DebruijnIndex := Nat

/-- `pub enum RegionKind<I: Interner>` — the eight variants, payloads drawn
from the environment. -/
inductive RegionKind (I : Env) : Type where
  | ReEarlyParam (r : I.EarlyParamRegion)
  | ReBound (d : DebruijnIndex) (r : I.BoundRegion)
  | ReLateParam (r : I.LateParamRegion)
  | ReStatic
  | ReVar (r : I.InferRegion)
  | RePlaceholder (r : I.PlaceholderRegion)
  | ReErased
  | ReError (e : I.ErrorGuaranteed)

open RegionKind

/-- `const fn regionkind_discriminant<I: Interner>(value: &RegionKind<I>) -> usize`. -/
def regionkind_discriminant {I : Env} (value : RegionKind I) : Nat :=
  match value with
  | ReEarlyParam _ => 0
  | ReBound _ _ => 1
  | ReLateParam _ => 2
  | ReStatic => 3
  | ReVar _ => 4
  | RePlaceholder _ => 5
  | ReErased => 6
  | ReError _ => 7

namespace RegionKind

/-- `impl<I: Interner> PartialEq for RegionKind<I>`, `fn eq`: fast tag
comparison first, then a pairwise match on the two values.  The final wildcard
arm carries `debug_assert!(false, ...)` in the source and returns `true`; in
release builds the assertion is compiled out, so the arm's value is `true`. -/
def eq {I : Env} (a b : RegionKind I) : Bool :=
  (regionkind_discriminant a == regionkind_discriminant b)
    && match a, b with
      | ReEarlyParam a_r, ReEarlyParam b_r => I.eqEarly a_r b_r
      | ReBound a_d a_r, ReBound b_d b_r => (a_d == b_d) && I.eqBound a_r b_r
      | ReLateParam a_r, ReLateParam b_r => I.eqLate a_r b_r
      | ReStatic, ReStatic => true
      | ReVar a_r, ReVar b_r => I.eqInfer a_r b_r
      | RePlaceholder a_r, RePlaceholder b_r => I.eqPlaceholder a_r b_r
      | ReErased, ReErased => true
      | ReError _, ReError _ => true
      | _, _ => true

/-- A copy of `eq` whose defensive wildcard arm returns an arbitrary value
`fb` instead of the source's `true`; used to show that the wildcard arm's
value never influences the result (i.e. the branch is effectively
unreachable). -/
def eqWithFallback {I : Env} (fb : Bool) (a b : RegionKind I) : Bool :=
  (regionkind_discriminant a == regionkind_discriminant b)
    && match a, b with
      | ReEarlyParam a_r, ReEarlyParam b_r => I.eqEarly a_r b_r
      | ReBound a_d a_r, ReBound b_d b_r => (a_d == b_d) && I.eqBound a_r b_r
      | ReLateParam a_r, ReLateParam b_r => I.eqLate a_r b_r
      | ReStatic, ReStatic => true
      | ReVar a_r, ReVar b_r => I.eqInfer a_r b_r
      | RePlaceholder a_r, RePlaceholder b_r => I.eqPlaceholder a_r b_r
      | ReErased, ReErased => true
      | ReError _, ReError _ => true
      | _, _ => fb

/-- True exactly when the pair of values is headed by the same variant, i.e.
when one of the eight explicit same-variant arms of `eq`'s match applies. -/
def sameVariantArm {I : Env} (a b : RegionKind I) : Bool :=
  match a, b with
  | ReEarlyParam _, ReEarlyParam _ => true
  | ReBound _ _, ReBound _ _ => true
  | ReLateParam _, ReLateParam _ => true
  | ReStatic, ReStatic => true
  | ReVar _, ReVar _ => true
  | RePlaceholder _, RePlaceholder _ => true
  | ReErased, ReErased => true
  | ReError _, ReError _ => true
  | _, _ => false

/-- Modelled from the spec: the payload side of the spec's characterisation
of equality (tags match AND payloads equal under `Env`'s own equality for
that specific payload type).  For same-variant pairs it is the payload
comparison (with `Error` payload-free); on mismatched-variant pairs it is
vacuously `true` (the tag conjunct already fails there). -/
def payloadEq {I : Env} (a b : RegionKind I) : Bool :=
  match a, b with
  | ReEarlyParam a_r, ReEarlyParam b_r => I.eqEarly a_r b_r
  | ReBound a_d a_r, ReBound b_d b_r => (a_d == b_d) && I.eqBound a_r b_r
  | ReLateParam a_r, ReLateParam b_r => I.eqLate a_r b_r
  | ReStatic, ReStatic => true
  | ReVar a_r, ReVar b_r => I.eqInfer a_r b_r
  | RePlaceholder a_r, RePlaceholder b_r => I.eqPlaceholder a_r b_r
  | ReErased, ReErased => true
  | ReError _, ReError _ => true
  | _, _ => true

/-- Whether a value is a `ReVar` (unresolved inference variable). -/
def isReVar {I : Env} (a : RegionKind I) : Bool :=
  match a with
  | ReVar _ => true
  | _ => false

/-- The derived `Ord` (the derivative-crate structural derive with the
slow-enum opt-in): variants compare by declaration order; within the same
variant, fields compare lexicographically in declared order.  Being
structural, it compares `ReError` payloads (hence requires `cmpError`),
unlike the hand-written `eq`. -/
def cmp {I : Env} (a b : RegionKind I) : Ordering :=
  match a, b with
  | ReEarlyParam x, ReEarlyParam y => I.cmpEarly x y
  | ReBound d1 r1, ReBound d2 r2 => (compare d1 d2).then (I.cmpBound r1 r2)
  | ReLateParam x, ReLateParam y => I.cmpLate x y
  | ReStatic, ReStatic => Ordering.eq
  | ReVar x, ReVar y => I.cmpInfer x y
  | RePlaceholder x, RePlaceholder y => I.cmpPlaceholder x y
  | ReErased, ReErased => Ordering.eq
  | ReError x, ReError y => I.cmpError x y
  | x, y => compare (regionkind_discriminant x) (regionkind_discriminant y)

/-- `impl HashStable<CTX> for RegionKind<I>`, `fn hash_stable`: first absorb
`std::mem::discriminant(self)` (modelled by the discriminant number), then the
variant's fields in declared order; `ReErased | ReStatic | ReError(_)` absorb
nothing further; `ReVar(_)` panics (`none`). -/
def hash_stable {I : Env} (a : RegionKind I) (hasher : List Nat) :
    Option (List Nat) :=
  let hasher := hasher ++ [regionkind_discriminant a]
  match a with
  | ReErased => some hasher
  | ReStatic => some hasher
  | ReError _ => some hasher
  | ReBound d r => some (hasher ++ [d, I.hashBound r])
  | ReEarlyParam r => some (hasher ++ [I.hashEarly r])
  | ReLateParam r => some (hasher ++ [I.hashLate r])
  | RePlaceholder r => some (hasher ++ [I.hashPlaceholder r])
  | ReVar _ => none

/-- The derived `Hash` (`#[derivative(Hash(bound = ""))]`): structural —
absorb the discriminant, then every field of the variant, `ReError`'s
`ErrorGuaranteed` payload included.  Never panics. -/
def derivedHash {I : Env} (a : RegionKind I) (hasher : List Nat) : List Nat :=
  let hasher := hasher ++ [regionkind_discriminant a]
  match a with
  | ReEarlyParam r => hasher ++ [I.hashEarly r]
  | ReBound d r => hasher ++ [d, I.hashBound r]
  | ReLateParam r => hasher ++ [I.hashLate r]
  | ReStatic => hasher
  | ReVar r => hasher ++ [I.hashInfer r]
  | RePlaceholder r => hasher ++ [I.hashPlaceholder r]
  | ReErased => hasher
  | ReError e => hasher ++ [I.hashError e]

end RegionKind

/-- The companion inference context used by `DebugWithInfcx`: all the
`RegionKind` formatter needs of it is how it renders an inference variable
(`this.wrap(vid)` in the source). -/
structure InferCtx (I : Env) where
  fmtVar : I.InferRegion → String

/-- `WithInfcx::with_no_infcx`: the no-op context, which renders an inference
variable by the payload's own plain `Debug`. -/
def noInfcx (I : Env) : InferCtx I :=
  ⟨fun v => I.fmtInfer v⟩

namespace RegionKind

/-- `impl<I: Interner> DebugWithInfcx<I> for RegionKind<I>`, `fn fmt`: the
context-bearing rendering.  Only the `ReVar` arm consults the context;
`ReLateParam` prints the bare payload, `ReError` prints `"ReError"` without
its payload. -/
def fmtWithInfcx {I : Env} (cx : InferCtx I) (a : RegionKind I) : String :=
  match a with
  | ReEarlyParam data => "ReEarlyParam(" ++ I.fmtEarly data ++ ")"
  | ReBound binder_id bound_region =>
      "ReBound(" ++ toString binder_id ++ ", " ++ I.fmtBound bound_region ++ ")"
  | ReLateParam fr => I.fmtLate fr
  | ReStatic => "ReStatic"
  | ReVar vid => cx.fmtVar vid
  | RePlaceholder placeholder => "RePlaceholder(" ++ I.fmtPlaceholder placeholder ++ ")"
  | ReErased => "ReErased"
  | ReError _ => "ReError"

/-- `impl<I: Interner> fmt::Debug for RegionKind<I>`, `fn fmt`: implemented
solely as `WithInfcx::with_no_infcx(self).fmt(f)`, i.e. delegation to the
context-bearing mode with the no-op context. -/
def fmtDebug {I : Env} (a : RegionKind I) : String :=
  fmtWithInfcx (noInfcx I) a

end RegionKind

/-- A concrete environment for witnesses and counterexamples: every payload
type is `Nat`, payload equality is `Nat` equality, payload comparison is `Nat`
comparison, a payload hashes to itself, and a payload renders as its decimal
numeral.  All the payload capabilities are mutually consistent. -/
@[reducible]
def natEnv : Env where
  EarlyParamRegion := Nat
  BoundRegion := Nat
  LateParamRegion := Nat
  InferRegion := Nat
  PlaceholderRegion := Nat
  ErrorGuaranteed := Nat
  eqEarly := fun x y => x == y
  eqBound := fun x y => x == y
  eqLate := fun x y => x == y
  eqInfer := fun x y => x == y
  eqPlaceholder := fun x y => x == y
  cmpEarly := compare
  cmpBound := compare
  cmpLate := compare
  cmpInfer := compare
  cmpPlaceholder := compare
  cmpError := compare
  hashEarly := fun x => x
  hashBound := fun x => x
  hashLate := fun x => x
  hashInfer := fun x => x
  hashPlaceholder := fun x => x
  hashError := fun x => x
  fmtEarly := fun x => toString x
  fmtBound := fun x => toString x
  fmtLate := fun x => toString x
  fmtInfer := fun x => toString x
  fmtPlaceholder := fun x => toString x

/-- A variant of `natEnv` whose `ErrorGuaranteed` hash is constant, as it is
for the zero-sized `ErrorGuaranteed` of the real compiler. -/
@[reducible]
def zeroErrEnv : Env :=
  { natEnv with hashError := fun _ => 0 }

/-- A variant of `natEnv` whose `ErrorGuaranteed` comparison reports every
pair equal, as it does for the zero-sized `ErrorGuaranteed` of the real
compiler. -/
@[reducible]
def eqErrEnv : Env :=
  { natEnv with cmpError := fun _ _ => Ordering.eq }

/-- C1: equality holds iff the variant tags match and, for variants carrying
payload, the payloads are equal under `Env`'s equality for that payload type;
in particular two `ReBound` values are equal exactly when both the de Bruijn
depth index and the bound-region payload are equal, and a differing depth
index alone makes them unequal. -/
theorem c1_eq_iff_tag_and_payload (I : Env) (a b : RegionKind I) :
    (RegionKind.eq a b
      = ((regionkind_discriminant a == regionkind_discriminant b)
          && RegionKind.payloadEq a b))
    ∧ (∀ (d1 d2 : DebruijnIndex) (r1 r2 : I.BoundRegion),
        RegionKind.eq (ReBound d1 r1) (ReBound d2 r2)
          = ((d1 == d2) && I.eqBound r1 r2))
    ∧ (∀ (d1 d2 : DebruijnIndex) (r1 r2 : I.BoundRegion), d1 ≠ d2 →
        RegionKind.eq (ReBound d1 r1) (ReBound d2 r2) = false) := by
  refine ⟨?_, ?_, ?_⟩
  · cases a <;> cases b <;> rfl
  · intro d1 d2 r1 r2
    rfl
  · intro d1 d2 r1 r2 h
    simp [RegionKind.eq, regionkind_discriminant, h]

/-- Witness for C1 at a concrete environment: two `Bound` values differing
only in the depth index are unequal. -/
theorem c1_witness :
    RegionKind.eq (I := natEnv) (ReBound 0 5) (ReBound 1 5) = false :=
  (c1_eq_iff_tag_and_payload natEnv ReStatic ReStatic).2.2 0 1 5 5 (by decide)

/-- C2: the stable fingerprint hash fails fatally (returns no digest) iff its
argument is a `ReVar`; every other variant yields a digest. -/
theorem c2_hash_stable_fatal_iff_var (I : Env) (a : RegionKind I)
    (hasher : List Nat) :
    RegionKind.hash_stable a hasher = none ↔ RegionKind.isReVar a = true := by
  cases a <;> simp [RegionKind.hash_stable, RegionKind.isReVar]

/-- C4: any two `ReError` sentinels compare equal and stable-hash to the same
digest regardless of the proof tokens they carry. -/
theorem c4_error_no_payload_semantics (I : Env) (e1 e2 : I.ErrorGuaranteed)
    (hasher : List Nat) :
    RegionKind.eq (ReError e1) (ReError e2) = true
      ∧ RegionKind.hash_stable (ReError e1) hasher
          = RegionKind.hash_stable (ReError e2) hasher :=
  ⟨rfl, rfl⟩

/-- C5: the stable hash absorbs the variant tag first, then that variant's
payload fields in declared field order (for `ReBound`: the depth index then
the bound region); `ReStatic`, `ReErased` and `ReError` contribute nothing
beyond the tag. -/
theorem c5_hash_stable_layout (I : Env) (hasher : List Nat) :
    (∀ r, RegionKind.hash_stable (ReEarlyParam r) hasher
        = some (hasher ++ [0, I.hashEarly r]))
    ∧ (∀ d r, RegionKind.hash_stable (ReBound d r) hasher
        = some (hasher ++ [1, d, I.hashBound r]))
    ∧ (∀ r, RegionKind.hash_stable (ReLateParam r) hasher
        = some (hasher ++ [2, I.hashLate r]))
    ∧ RegionKind.hash_stable (ReStatic : RegionKind I) hasher
        = some (hasher ++ [3])
    ∧ (∀ r, RegionKind.hash_stable (RePlaceholder r) hasher
        = some (hasher ++ [5, I.hashPlaceholder r]))
    ∧ RegionKind.hash_stable (ReErased : RegionKind I) hasher
        = some (hasher ++ [6])
    ∧ (∀ (e : I.ErrorGuaranteed), RegionKind.hash_stable (ReError e) hasher
        = some (hasher ++ [7])) := by
  refine ⟨fun r => ?_, fun d r => ?_, fun r => ?_, ?_, fun r => ?_, ?_, fun e => ?_⟩
    <;> simp [RegionKind.hash_stable, regionkind_discriminant]

/-- C6: for every non-`ReVar` value, the context-free debug rendering equals
the context-bearing rendering under any context, and the context-free mode is
exactly delegation to the context-bearing mode with the no-op context. -/
theorem c6_debug_delegation (I : Env) (cx : InferCtx I) (a : RegionKind I)
    (h : RegionKind.isReVar a = false) :
    RegionKind.fmtWithInfcx cx a = RegionKind.fmtDebug a
      ∧ RegionKind.fmtDebug a = RegionKind.fmtWithInfcx (noInfcx I) a := by
  refine ⟨?_, rfl⟩
  cases a <;> simp_all [RegionKind.fmtWithInfcx, RegionKind.fmtDebug, noInfcx,
    RegionKind.isReVar]

/-- Witness for C6 at a concrete environment, with a context that renders
inference variables differently from the no-op context. -/
theorem c6_witness :
    RegionKind.fmtWithInfcx (I := natEnv) ⟨fun v => "?" ++ toString v⟩ ReStatic
      = RegionKind.fmtDebug (I := natEnv) ReStatic :=
  (c6_debug_delegation natEnv ⟨fun v => "?" ++ toString v⟩ ReStatic rfl).1

/-- C8: the derived ordering compares variant tags first; for every pair of
values with different tags the result is determined entirely by the tags in
declaration order, independent of the payloads. -/
theorem c8_cmp_tag_first (I : Env) (a b : RegionKind I)
    (h : regionkind_discriminant a ≠ regionkind_discriminant b) :
    RegionKind.cmp a b
      = compare (regionkind_discriminant a) (regionkind_discriminant b) := by
  cases a <;> cases b <;> simp_all [RegionKind.cmp, regionkind_discriminant]

/-- Witness for C8 at a concrete environment: `ReStatic` (tag 3) versus
`ReErased` (tag 6). -/
theorem c8_witness :
    RegionKind.cmp (I := natEnv) ReStatic ReErased
      = compare (regionkind_discriminant (ReStatic : RegionKind natEnv))
          (regionkind_discriminant (ReErased : RegionKind natEnv)) :=
  c8_cmp_tag_first natEnv ReStatic ReErased (by decide)

/-- C9: whenever the two discriminants are equal, one of the eight explicit
same-variant arms of `eq`'s match applies, so the defensive wildcard arm is
unreachable under that precondition: replacing the wildcard's result (the
source's release-build `true`, after the compiled-out `debug_assert!`) by any
value leaves `eq` unchanged. -/
theorem c9_fallback_unreachable (I : Env) (a b : RegionKind I)
    (h : regionkind_discriminant a = regionkind_discriminant b) :
    RegionKind.sameVariantArm a b = true
      ∧ ∀ fb, RegionKind.eqWithFallback fb a b = RegionKind.eq a b := by
  cases a <;> cases b <;>
    simp_all [RegionKind.sameVariantArm, RegionKind.eqWithFallback,
      RegionKind.eq, regionkind_discriminant]

/-- Witness for C9 at a concrete environment: a same-tag pair. -/
theorem c9_witness :
    RegionKind.sameVariantArm (I := natEnv) (ReBound 0 1) (ReBound 2 3) = true :=
  (c9_fallback_unreachable natEnv (ReBound 0 1) (ReBound 2 3) rfl).1

/-- `Nat` boolean equality is reflexive (helper for witnesses). -/
theorem natBeqRefl (x : Nat) : (x == x) = true := by
  simp

/-- `Nat` boolean equality is symmetric (helper for witnesses). -/
theorem natBeqSymm (x y : Nat) (h : (x == y) = true) : (y == x) = true := by
  simp_all

/-- `Nat` boolean equality is transitive (helper for witnesses). -/
theorem natBeqTrans (x y z : Nat) (h1 : (x == y) = true)
    (h2 : (y == z) = true) : (x == z) = true := by
  simp_all

/-- C7: assuming `Env`'s payload equalities are equivalence relations,
equality on `RegionKind` is reflexive, symmetric and transitive, and
coincides with tag-then-payload comparison for every pair of values. -/
theorem c7_eq_equivalence (I : Env)
    (hEr : ∀ x, I.eqEarly x x = true)
    (hEs : ∀ x y, I.eqEarly x y = true → I.eqEarly y x = true)
    (hEt : ∀ x y z, I.eqEarly x y = true → I.eqEarly y z = true →
      I.eqEarly x z = true)
    (hBr : ∀ x, I.eqBound x x = true)
    (hBs : ∀ x y, I.eqBound x y = true → I.eqBound y x = true)
    (hBt : ∀ x y z, I.eqBound x y = true → I.eqBound y z = true →
      I.eqBound x z = true)
    (hLr : ∀ x, I.eqLate x x = true)
    (hLs : ∀ x y, I.eqLate x y = true → I.eqLate y x = true)
    (hLt : ∀ x y z, I.eqLate x y = true → I.eqLate y z = true →
      I.eqLate x z = true)
    (hVr : ∀ x, I.eqInfer x x = true)
    (hVs : ∀ x y, I.eqInfer x y = true → I.eqInfer y x = true)
    (hVt : ∀ x y z, I.eqInfer x y = true → I.eqInfer y z = true →
      I.eqInfer x z = true)
    (hPr : ∀ x, I.eqPlaceholder x x = true)
    (hPs : ∀ x y, I.eqPlaceholder x y = true → I.eqPlaceholder y x = true)
    (hPt : ∀ x y z, I.eqPlaceholder x y = true → I.eqPlaceholder y z = true →
      I.eqPlaceholder x z = true) :
    (∀ a : RegionKind I, RegionKind.eq a a = true)
    ∧ (∀ a b : RegionKind I,
        RegionKind.eq a b = true → RegionKind.eq b a = true)
    ∧ (∀ a b c : RegionKind I, RegionKind.eq a b = true →
        RegionKind.eq b c = true → RegionKind.eq a c = true)
    ∧ (∀ a b : RegionKind I,
        RegionKind.eq a b
          = ((regionkind_discriminant a == regionkind_discriminant b)
              && RegionKind.payloadEq a b)) := by
  refine ⟨?_, ?_, ?_, ?_⟩
  · intro a
    cases a <;>
      simp [RegionKind.eq, regionkind_discriminant, hEr, hBr, hLr, hVr, hPr]
  · intro a b h
    cases a <;> cases b <;>
      (try simp [RegionKind.eq, regionkind_discriminant] at h ⊢) <;>
      first
        | exact hEs _ _ h
        | exact hLs _ _ h
        | exact hVs _ _ h
        | exact hPs _ _ h
        | exact ⟨h.1.symm, hBs _ _ h.2⟩
  · intro a b c h1 h2
    cases a <;> cases b <;> cases c <;>
      (try simp [RegionKind.eq, regionkind_discriminant] at h1 h2 ⊢) <;>
      first
        | exact hEt _ _ _ h1 h2
        | exact hLt _ _ _ h1 h2
        | exact hVt _ _ _ h1 h2
        | exact hPt _ _ _ h1 h2
        | exact ⟨h1.1.trans h2.1, hBt _ _ _ h1.2 h2.2⟩
  · intro a b
    cases a <;> cases b <;> rfl

/-- Witness for C7 at a concrete environment. -/
theorem c7_witness :
    RegionKind.eq (I := natEnv) (ReBound 3 4) (ReBound 3 4) = true :=
  (c7_eq_equivalence natEnv
    natBeqRefl natBeqSymm natBeqTrans
    natBeqRefl natBeqSymm natBeqTrans
    natBeqRefl natBeqSymm natBeqTrans
    natBeqRefl natBeqSymm natBeqTrans
    natBeqRefl natBeqSymm natBeqTrans).1 (ReBound 3 4)

/-- C3 fails as stated: under the derived structural `Hash`, the
`ErrorGuaranteed` payload is absorbed, so two `ReError` values that the
hand-written `eq` deems equal hash to different digests when the environment
hashes its proof tokens apart. -/
theorem c3_counterexample :
    RegionKind.eq (I := natEnv) (ReError 0) (ReError 1) = true
      ∧ RegionKind.derivedHash (I := natEnv) (ReError 0) []
          ≠ RegionKind.derivedHash (I := natEnv) (ReError 1) [] := by
  exact ⟨rfl, by decide⟩

/-- C3 amended: if the environment's payload hash functions respect the
corresponding payload equalities, then `a == b` implies equal stable-hash
results (the fatal `Var` case included: both sides are fatal); the derived
structural `Hash` moreover agrees on equal values only under the additional
assumption that the `ErrorGuaranteed` hash is constant (as it is for the
compiler's zero-sized `ErrorGuaranteed`). -/
theorem c3_amended_hash_respects_eq (I : Env)
    (hE : ∀ x y, I.eqEarly x y = true → I.hashEarly x = I.hashEarly y)
    (hB : ∀ x y, I.eqBound x y = true → I.hashBound x = I.hashBound y)
    (hL : ∀ x y, I.eqLate x y = true → I.hashLate x = I.hashLate y)
    (hV : ∀ x y, I.eqInfer x y = true → I.hashInfer x = I.hashInfer y)
    (hP : ∀ x y, I.eqPlaceholder x y = true →
      I.hashPlaceholder x = I.hashPlaceholder y)
    (hErr : ∀ x y, I.hashError x = I.hashError y)
    (a b : RegionKind I) (hasher : List Nat)
    (hab : RegionKind.eq a b = true) :
    RegionKind.hash_stable a hasher = RegionKind.hash_stable b hasher
      ∧ RegionKind.derivedHash a hasher = RegionKind.derivedHash b hasher := by
  cases a <;> cases b <;>
    (try simp [RegionKind.eq, regionkind_discriminant] at hab) <;>
    (try simp [RegionKind.hash_stable, RegionKind.derivedHash,
      regionkind_discriminant]) <;>
    first
      | exact hE _ _ hab
      | exact hL _ _ hab
      | exact hV _ _ hab
      | exact hP _ _ hab
      | exact hErr _ _
      | exact ⟨hab.1, hB _ _ hab.2⟩

/-- Witness for the amended C3 at a concrete environment whose
`ErrorGuaranteed` hash is constant. -/
theorem c3_amended_witness :
    RegionKind.hash_stable (I := zeroErrEnv) (ReError 0) []
        = RegionKind.hash_stable (I := zeroErrEnv) (ReError 1) []
      ∧ RegionKind.derivedHash (I := zeroErrEnv) (ReError 0) []
          = RegionKind.derivedHash (I := zeroErrEnv) (ReError 1) [] :=
  c3_amended_hash_respects_eq zeroErrEnv
    (fun _ _ h => eq_of_beq h) (fun _ _ h => eq_of_beq h)
    (fun _ _ h => eq_of_beq h) (fun _ _ h => eq_of_beq h)
    (fun _ _ h => eq_of_beq h) (fun _ _ => rfl)
    (ReError 0) (ReError 1) [] rfl

/-- `o.then o2` is `eq` exactly when both comparisons are (helper). -/
theorem ordering_then_eq (o o2 : Ordering) :
    o.then o2 = Ordering.eq ↔ o = Ordering.eq ∧ o2 = Ordering.eq := by
  cases o <;> simp [Ordering.then]

/-- C10 fails as stated: the derived structural `Ord` compares `ReError`
payloads, so two `ReError` values that the hand-written `eq` deems equal
compare as non-`Equal` when the environment orders its proof tokens apart. -/
theorem c10_counterexample :
    RegionKind.eq (I := natEnv) (ReError 0) (ReError 1) = true
      ∧ RegionKind.cmp (I := natEnv) (ReError 0) (ReError 1) ≠ Ordering.eq := by
  exact ⟨rfl, by decide⟩

/-- C10 amended: the derived ordering reports `Equal` exactly on `eq`-equal
pairs, provided the environment's payload comparisons agree with its payload
equalities and the `ErrorGuaranteed` comparison reports every pair equal (as
it does for the compiler's zero-sized `ErrorGuaranteed`). -/
theorem c10_amended_cmp_eq_iff_eq (I : Env)
    (hE : ∀ x y, I.cmpEarly x y = Ordering.eq ↔ I.eqEarly x y = true)
    (hB : ∀ x y, I.cmpBound x y = Ordering.eq ↔ I.eqBound x y = true)
    (hL : ∀ x y, I.cmpLate x y = Ordering.eq ↔ I.eqLate x y = true)
    (hV : ∀ x y, I.cmpInfer x y = Ordering.eq ↔ I.eqInfer x y = true)
    (hP : ∀ x y, I.cmpPlaceholder x y = Ordering.eq ↔
      I.eqPlaceholder x y = true)
    (hErr : ∀ x y, I.cmpError x y = Ordering.eq)
    (a b : RegionKind I) :
    RegionKind.cmp a b = Ordering.eq ↔ RegionKind.eq a b = true := by
  cases a <;> cases b <;>
    simp [RegionKind.cmp, RegionKind.eq, regionkind_discriminant,
      ordering_then_eq, hE, hB, hL, hV, hP, hErr, Nat.compare_eq_eq]

/-- Witness for the amended C10 at a concrete environment whose
`ErrorGuaranteed` comparison reports every pair equal. -/
theorem c10_amended_witness :
    RegionKind.cmp (I := eqErrEnv) (ReError 0) (ReError 1) = Ordering.eq :=
  (c10_amended_cmp_eq_iff_eq eqErrEnv
    (fun x y => by simp [Nat.compare_eq_eq])
    (fun x y => by simp [Nat.compare_eq_eq])
    (fun x y => by simp [Nat.compare_eq_eq])
    (fun x y => by simp [Nat.compare_eq_eq])
    (fun x y => by simp [Nat.compare_eq_eq])
    (fun _ _ => rfl)
    (ReError 0) (ReError 1)).mpr rfl
